import Mathlib

/-
Verification development for the media-generation server
(video job lifecycle in server.js, image dual-transport flow in the
second server file). The JavaScript is shallowly embedded: JSON values
become an inductive type, JS truthiness is modelled explicitly, the
route handlers and the poll worker become pure Lean functions, and the
asynchronous interleaving of the detached submission task with poll
sweeps becomes an explicit action/step semantics on a system state.
-/

namespace ServerModel

/-- JS `s.trim()`: strip leading and trailing whitespace. -/
def jsTrim (s : String) : String :=
  ⟨((s.data.dropWhile Char.isWhitespace).reverse.dropWhile Char.isWhitespace).reverse⟩

/-- JS `s.toLowerCase()` (ASCII range, which covers the markers the
source compares against). -/
def strToLower (s : String) : String :=
  ⟨s.data.map Char.toLower⟩

/-- JSON values as produced by JSON.parse / response bodies. -/
inductive Json where
  | null
  | bool (b : Bool)
  | num (n : Int)
  | str (s : String)
  | arr (elems : List Json)
  | obj (fields : List (String × Json))
deriving Repr

/-- JavaScript truthiness of a JSON value (absent values are modelled
as Option.none at use sites). -/
def Json.truthy : Json → Bool
  | .null => false
  | .bool b => b
  | .num n => n != 0
  | .str s => s.length != 0
  | .arr _ => true
  | .obj _ => true

/-- Property lookup on an object's field list (first occurrence). -/
def lookupField : List (String × Json) → String → Option Json
  | [], _ => none
  | (k', v) :: rest, k => if k' = k then some v else lookupField rest k

/-- Property access `j.k`: defined on objects, undefined elsewhere. -/
def Json.getField : Json → String → Option Json
  | .obj fields, k => lookupField fields k
  | _, _ => none

/-- Truthy property access: `j.k` filtered through JS truthiness, the
building block of the source's `a.x || a.y || ...` chains. -/
def getT (j : Json) (k : String) : Option Json :=
  match j.getField k with
  | some v => if v.truthy then some v else none
  | none => none

/-- Element access `j[0]` (array head, or a "0" key on an object),
filtered through truthiness as the source's `a[0] && a[0].url` chains do. -/
def item0T : Json → Option Json
  | .arr (x :: _) => if x.truthy then some x else none
  | .obj fields =>
    match lookupField fields "0" with
    | some v => if v.truthy then some v else none
    | none => none
  | _ => none

/-- The JS `a || b` on possibly-absent values: keep `a` when truthy. -/
def orJS (a b : Option Json) : Option Json :=
  match a with
  | some v => if v.truthy then some v else b
  | none => b


/-! ## Video job data model (server.js) -/

/-- The job `status` strings `queued | processing | succeeded | failed`. -/
inductive JobStatus where
  | queued
  | processing
  | succeeded
  | failed
deriving Repr, DecidableEq

/-- A job record as created by the `/api/generate-video` handler.
Timestamps are Nat milliseconds; absent (`null`) fields are `none`. -/
structure Job where
  id : String
  prompt : String
  duration : Nat
  width : Nat
  height : Nat
  status : JobStatus
  createdAt : Nat
  startedAt : Option Nat
  providerJobId : Option Json
  resultUrl : Option Json
  error : Option Json
  providerResponse : Option Json
  lastProviderPayload : Option Json
  maxPollMs : Nat
deriving Repr

/-- Static configuration read from the environment at process start. -/
structure Config where
  maxPollMs : Nat
deriving Repr, DecidableEq

/-- Models `job.maxPollMs || MAX_POLL_MS` — a zero (falsy) per-job value falls
back to the configured default. -/
def effMaxPoll (cfg : Config) (job : Job) : Nat :=
  if job.maxPollMs = 0 then cfg.maxPollMs else job.maxPollMs

/-! ## Provider status-response extraction (pollWorker, lines 96-103) -/

/-- Models `sData.status || sData.state || (sData.result && sData.result.status)`. -/
def extractStatusField (sData : Json) : Option Json :=
  getT sData "status" <|> getT sData "state" <|>
    ((getT sData "result").bind fun r => getT r "status")

/-- Models `status && (status === 'succeeded' || status === 'completed' || status === 'finished')`. -/
def isCompleted (sData : Json) : Bool :=
  match extractStatusField sData with
  | some (.str s) => s == "succeeded" || s == "completed" || s == "finished"
  | _ => false

/-- Models `status && (status === 'failed' || status === 'error')`. -/
def isFailedStatus (sData : Json) : Bool :=
  match extractStatusField sData with
  | some (.str s) => s == "failed" || s == "error"
  | _ => false

/-- Models `sData.video_url || sData.output_url || (sData.result && sData.result.video_url) ||
(sData.output && sData.output[0] && sData.output[0].url) ||
(sData.data && sData.data[0] && sData.data[0].url)`. -/
def extractVidUrl (sData : Json) : Option Json :=
  getT sData "video_url" <|> getT sData "output_url" <|>
    ((getT sData "result").bind fun r => getT r "video_url") <|>
    ((getT sData "output").bind fun o => (item0T o).bind fun e => getT e "url") <|>
    ((getT sData "data").bind fun d => (item0T d).bind fun e => getT e "url")

/-- Models `sData.video_base64 || (sData.output && sData.output[0] && sData.output[0].base64) ||
(sData.data && sData.data[0] && sData.data[0].base64)`. -/
def extractVidB64 (sData : Json) : Option Json :=
  getT sData "video_base64" <|>
    ((getT sData "output").bind fun o => (item0T o).bind fun e => getT e "base64") <|>
    ((getT sData "data").bind fun d => (item0T d).bind fun e => getT e "base64")

/-! ## Artifact materializer (saveVideoFromBase64OrUrl, lines 38-62) -/

/-- Outcome of an awaited download (`fetch(remoteUrl)`), as seen by the
caller: success with the body bytes, a non-ok HTTP status, or a thrown
network error. -/
inductive FetchOutcome where
  | ok (bytes : List Nat)
  | httpErr (status : Nat)
  | netErr (msg : String)
deriving Repr, DecidableEq

/-- A download outcome the `try`/`catch` treats as a failure: the non-ok
branch throws and the catch also swallows network errors. -/
def FetchOutcome.isFailure : FetchOutcome → Bool
  | .ok _ => false
  | .httpErr _ => true
  | .netErr _ => true

/-- Function saveVideoFromBase64OrUrl: a base64 payload is decoded and written
under a fresh name (`fname` stands for the generated
`video-Date.now()-random.mp4`); a remote URL is downloaded and stored,
and on any download failure the remote URL itself is returned; with
neither input the result is `null`. -/
def saveVideoFromBase64OrUrl (base64 remoteUrl : Option Json) (fname : String)
    (dl : FetchOutcome) : Option Json :=
  match base64 with
  | some _ => some (.str ("/out/" ++ fname))
  | none =>
    match remoteUrl with
    | some u =>
      match dl with
      | .ok _ => some (.str ("/out/" ++ fname))
      | _ => some u
    | none => none

/-! ## pollWorker (lines 65-128), split at its await points

One visit of the worker to one job is split into the synchronous part
before `await fetch(statusUrl)` (`pollWorkerVisit`) and the
continuation applied when that fetch resolves (`pollWorkerResume`).
The continuation re-reads the shared `job` object, so it is a function
of the job state at resume time — the source performs these writes
without re-checking `job.status`. -/

/-- What the awaited status fetch produced: a non-ok response (the
worker logs and waits for the next tick), a parsed JSON body, or a
thrown error (caught, worker tries again next tick). -/
inductive PollOutcome where
  | httpFail (status : Nat) (txt : String)
  | jsonBody (sData : Json)
  | exn (msg : String)
deriving Repr

/-- Synchronous part of one pollWorker visit to one job (lines 67-86):
skip non-processing jobs; mark a job past its max-poll duration as
failed with a timeout error; skip jobs with no providerJobId; otherwise
start the status fetch. The Bool reports whether a provider status
request was issued. -/
def pollWorkerVisit (cfg : Config) (job : Job) (now : Nat) : Job × Bool :=
  if job.status ≠ .processing then (job, false)
  else
    let elapsed := now - job.startedAt.getD 0
    if effMaxPoll cfg job < elapsed then
      ({ job with status := .failed, error := some (.str "Polling timeout") }, false)
    else
      match job.providerJobId with
      | none => (job, false)
      | some _ => (job, true)

/-- Continuation of a pollWorker visit once the status fetch resolved
(lines 87-126): a non-ok response or a thrown error leaves the job
unchanged; a completed status extracts a result, materializes it and
marks the job succeeded (resultUrl is `saved || vidUrl || null`);
a failed status marks the job failed with the raw payload as error;
anything else only retains the payload for diagnostics. -/
def pollWorkerResume (job : Job) (o : PollOutcome) (fname : String)
    (dl : FetchOutcome) : Job :=
  match o with
  | .httpFail _ _ => job
  | .exn _ => job
  | .jsonBody sData =>
    if isCompleted sData then
      let vidUrl := extractVidUrl sData
      let b64 := extractVidB64 sData
      let saved := saveVideoFromBase64OrUrl b64 vidUrl fname dl
      { job with status := .succeeded,
                 resultUrl := orJS saved vidUrl,
                 providerResponse := some sData }
    else if isFailedStatus sData then
      { job with status := .failed, error := some sData }
    else
      { job with lastProviderPayload := some sData }

/-! ## The /api/generate-video handler (lines 145-259)

The handler validates, creates the job record, invokes the detached
async task — which runs synchronously up to its first await, the
`fetch(VIDEO_API_URL, ...)` — and then returns its HTTP response.
`generateVideo` models exactly that synchronous extent; the rest of the
detached task is `submitResume`, applied when the provider fetch
resolves. -/

/-- HTTP response of the submission route: an error status with a
message, or the `res.json({ jobId, status: 'queued' })` payload. -/
inductive SubmitResult where
  | err (httpStatus : Nat) (msg : String)
  | accepted (jobId : String) (status : String)
deriving Repr, DecidableEq

/-- Models `pdata.id || pdata.job_id || pdata.task_id || (pdata.data && pdata.data.id)`. -/
def extractProviderJobId (pdata : Json) : Option Json :=
  getT pdata "id" <|> getT pdata "job_id" <|> getT pdata "task_id" <|>
    ((getT pdata "data").bind fun d => getT d "id")

/-- What the awaited `fetch(VIDEO_API_URL, ...)` produced: a non-ok
response with its body text, a parsed JSON body, or a thrown error
(network failure, or a body that fails to parse as JSON). -/
inductive SubmitOutcome where
  | httpFail (status : Nat) (txt : String)
  | jsonBody (pdata : Json)
  | exn (msg : String)
deriving Repr

/-- Continuation of the detached submission task once the provider
fetch resolved (lines 202-249): non-ok → failed with the provider
error text; an immediate `video_url` or `video_base64` → materialize
and succeed; a provider job id → record it and leave the job for the
poll worker; anything else → failed with the raw payload attached;
a thrown error → failed with its message. The writes are applied to
the job as it is at resume time — the source never re-checks
`job.status` here. -/
def submitResume (job : Job) (o : SubmitOutcome) (fname : String)
    (dl : FetchOutcome) : Job :=
  match o with
  | .httpFail st txt =>
    { job with status := .failed,
               error := some (.str ("Provider initial error: " ++ toString st ++ " " ++ txt)) }
  | .exn msg => { job with status := .failed, error := some (.str msg) }
  | .jsonBody pdata =>
    match getT pdata "video_url" with
    | some vu =>
      let saved := saveVideoFromBase64OrUrl none (some vu) fname dl
      { job with status := .succeeded,
                 resultUrl := orJS saved (some vu),
                 providerResponse := some pdata }
    | none =>
      match getT pdata "video_base64" with
      | some b =>
        let saved := saveVideoFromBase64OrUrl (some b) none fname dl
        { job with status := .succeeded,
                   resultUrl := saved,
                   providerResponse := some pdata }
      | none =>
        match extractProviderJobId pdata with
        | some pid =>
          { job with providerJobId := some pid, providerResponse := some pdata }
        | none =>
          { job with status := .failed,
                     error := some (.obj [("note", .str "Unexpected provider response"),
                                          ("payload", pdata)]) }

/-- The job record built at lines 162-174 (status `queued`, nothing
started yet). `duration`, `width` and `height` arrive already parsed
with their env-var defaults applied. -/
def initialJob (cfg : Config) (prompt : String) (duration width height : Nat)
    (freshId : String) (now : Nat) : Job :=
  { id := freshId
    prompt := prompt
    duration := duration
    width := width
    height := height
    status := .queued
    createdAt := now
    startedAt := none
    providerJobId := none
    resultUrl := none
    error := none
    providerResponse := none
    lastProviderPayload := none
    maxPollMs := cfg.maxPollMs }

/-- System state for one submitted job: the job record, whether the
detached submission task is still awaiting its provider fetch, how many
pollWorker status fetches are in flight for the job, and the clock. -/
structure SysState where
  job : Job
  submitPending : Bool
  pollsInFlight : Nat
  now : Nat
deriving Repr

/-- State at the moment the handler's HTTP response is sent: the
detached task has already run its synchronous prefix (lines 181-183),
so the stored job is `processing` with `startedAt` set, and the
provider fetch is pending. -/
def startedState (cfg : Config) (prompt : String) (duration width height : Nat)
    (freshId : String) (now : Nat) : SysState :=
  { job := { initialJob cfg prompt duration width height freshId now with
               status := .processing, startedAt := some now }
    submitPending := true
    pollsInFlight := 0
    now := now }

/-- The `/api/generate-video` handler, up to the point its HTTP
response is returned. `rawPrompt` is `req.body.prompt || ''`; the model
returns the response together with the stored system state (`none`
when validation rejected the request before any job was created).
JavaScript runs the handler to its first suspension without
interleaving, so the returned state is exactly what any later reader
first observes. The response is computed without any provider
input — the asynchronous hand-off is visible in the type. -/
def generateVideo (cfg : Config) (rawPrompt : String) (duration width height : Nat)
    (apiKey : String) (freshId : String) (now : Nat) :
    SubmitResult × Option SysState :=
  let prompt := jsTrim rawPrompt
  if prompt.length = 0 ∨ prompt.length < 3 then
    (.err 400 "Prompt too short", none)
  else if apiKey.length = 0 then
    (.err 500 "Server not configured with PROVIDER_API_KEY. Set it in Render environment variables.",
     none)
  else
    (.accepted freshId "queued",
     some (startedState cfg prompt duration width height freshId now))

/-! ## Interleaving semantics

`setInterval(pollWorker, POLL_INTERVAL_MS)` fires on a fixed period and
does not await the promise returned by the previous `pollWorker` call,
so a sweep's synchronous part can run while earlier fetches are still
outstanding. Each action below is one synchronously-executed stretch
of source code between suspension points; a trace is any list of
actions, which covers every interleaving the event loop can produce. -/

/-- One atomic (synchronously executed) stretch of the system. -/
inductive Act where
  | tick (dt : Nat)
  | submitResolve (o : SubmitOutcome) (fname : String) (dl : FetchOutcome)
  | pollStart
  | pollResolve (o : PollOutcome) (fname : String) (dl : FetchOutcome)

/-- Apply one action: time passes; the pending submission fetch
resolves and its continuation runs; a sweep visits the job (possibly
issuing one more status fetch); or one outstanding status fetch
resolves and its continuation runs. -/
def exec (cfg : Config) (s : SysState) : Act → SysState
  | .tick dt => { s with now := s.now + dt }
  | .submitResolve o fname dl =>
    if s.submitPending then
      { s with job := submitResume s.job o fname dl, submitPending := false }
    else s
  | .pollStart =>
    let v := pollWorkerVisit cfg s.job s.now
    { s with job := v.1, pollsInFlight := s.pollsInFlight + (if v.2 then 1 else 0) }
  | .pollResolve o fname dl =>
    if 0 < s.pollsInFlight then
      { s with job := pollWorkerResume s.job o fname dl,
               pollsInFlight := s.pollsInFlight - 1 }
    else s

/-- Run a trace of actions from a state. -/
def run (cfg : Config) (s : SysState) : List Act → SysState
  | [] => s
  | a :: rest => run cfg (exec cfg s a) rest

/-- The `/api/status/:jobId` response body (lines 267-275), a pure read
of the job record. -/
structure StatusView where
  id : String
  status : JobStatus
  prompt : String
  resultUrl : Option Json
  error : Option Json
  providerJobId : Option Json
  providerResponseSummary : Option Json
deriving Repr

/-- Route `app.get('/api/status/:jobId')`: project the selected fields. -/
def getStatus (job : Job) : StatusView :=
  { id := job.id
    status := job.status
    prompt := job.prompt
    resultUrl := job.resultUrl
    error := job.error
    providerJobId := job.providerJobId
    providerResponseSummary :=
      match job.providerResponse with
      | some p => orJS (getT p "id") (getT p "job_id")
      | none => none }

/-! ## Image flow: dual-transport submission (second server file)

`postJsonToProvider` / `postFormToProvider` both return
`{ ok, status, statusText, text, json }`; the handler first tries the
JSON encoding and retries once with multipart form data when the
failure looks like an encoding complaint. -/

/-- The normalized provider response produced by `postJsonToProvider`
and `postFormToProvider`: `json` is `none` when the body did not parse
(the source stores `null`). -/
structure ProvResp where
  ok : Bool
  status : Nat
  statusText : String
  text : String
  json : Option Json
deriving Repr

/-- Whether `pat` starts the character list `l`. -/
def startsList : List Char → List Char → Bool
  | [], _ => true
  | _ :: _, [] => false
  | p :: ps, c :: cs => p == c && startsList ps cs

/-- Whether `pat` occurs contiguously inside `l`. -/
def hasSub (pat : List Char) : List Char → Bool
  | [] => startsList pat []
  | c :: cs => startsList pat (c :: cs) || hasSub pat cs

/-- JS `hay.includes(pat)`. -/
def strIncludes (hay pat : String) : Bool :=
  hasSub pat.toList hay.toList

/-- The retry trigger (line 153): `jsonAttempt.status === 400 ||`
the lowercased body text contains one of the markers `multipart`,
`content-type`, `accept`, `prompt: required`. -/
def fallbackSignals (jsonAttempt : ProvResp) : Bool :=
  let lowerText := strToLower jsonAttempt.text
  jsonAttempt.status == 400 || strIncludes lowerText "multipart" ||
    strIncludes lowerText "content-type" || strIncludes lowerText "accept" ||
    strIncludes lowerText "prompt: required"

/-! ## Image result extraction and materialization -/

/-- Models `(pdata && pdata.artifacts && pdata.artifacts[0] && pdata.artifacts[0].base64) ||
(pdata && pdata.image_base64) || null`. -/
def extractImgB64 (pdata : Option Json) : Option Json :=
  (pdata.bind fun pd =>
    (getT pd "artifacts").bind fun a => (item0T a).bind fun e => getT e "base64") <|>
  (pdata.bind fun pd => getT pd "image_base64")

/-- Models `(pdata && pdata.output && pdata.output[0] && pdata.output[0].url) ||
(pdata && pdata.image_url) || null`. -/
def extractImgUrl (pdata : Option Json) : Option Json :=
  (pdata.bind fun pd =>
    (getT pd "output").bind fun o => (item0T o).bind fun e => getT e "url") <|>
  (pdata.bind fun pd => getT pd "image_url")

/-- What the shared body of the ok-response branches (lines 124-148 and
156-180) finds in a provider body: an inline base64 payload, a result
URL, or nothing. -/
inductive ImgExtract where
  | b64Inline (b : Json)
  | urlRef (u : Json)
  | noResult
deriving Repr

/-- The extraction order of the ok-response branches: base64 first,
then a URL, else no result. -/
def imageExtract (pdata : Option Json) : ImgExtract :=
  match extractImgB64 pdata with
  | some b => .b64Inline b
  | none =>
    match extractImgUrl pdata with
    | some u => .urlRef u
    | none => .noResult

/-- Value of one base64 alphabet character (A-Z, a-z, 0-9, +, /). -/
def b64CharVal (c : Char) : Option Nat :=
  if 'A' ≤ c ∧ c ≤ 'Z' then some (c.toNat - 65)
  else if 'a' ≤ c ∧ c ≤ 'z' then some (c.toNat - 97 + 26)
  else if '0' ≤ c ∧ c ≤ '9' then some (c.toNat - 48 + 52)
  else if c = '+' then some 62
  else if c = '/' then some 63
  else none

/-- Reassemble 6-bit groups into bytes (groups of four sextets give
three bytes; a trailing pair or triple gives one or two). -/
def sextetsToBytes : List Nat → List Nat
  | a :: b :: c :: d :: rest =>
    (a * 4 + b / 16) :: ((b % 16) * 16 + c / 4) :: ((c % 4) * 64 + d) ::
      sextetsToBytes rest
  | [a, b] => [a * 4 + b / 16]
  | [a, b, c] => [a * 4 + b / 16, (b % 16) * 16 + c / 4]
  | _ => []

/-- Models `Buffer.from(data, 'base64')`: decode up to the padding, ignoring
characters outside the alphabet. -/
def base64DecodeBytes (s : String) : List Nat :=
  sextetsToBytes ((s.toList.takeWhile (· ≠ '=')).filterMap b64CharVal)

/-- The data-URL pattern of saveBase64ImageToOut
(`^data:([A-Za-z-+/]+);base64,(.+)$`): when it matches, return the
media type and the payload after the comma; otherwise the whole string
is the payload. -/
def stripDataUrl (s : String) : Option String × String :=
  if s.startsWith "data:" then
    match (s.drop 5).splitOn ";base64," with
    | [mime, data] =>
      if mime.length != 0 && data.length != 0 &&
          mime.toList.all (fun c => c.isAlpha || c = '-' || c = '+' || c = '/') then
        (some mime, data)
      else (none, s)
    | _ => (none, s)
  else (none, s)

/-- The content extension saveBase64ImageToOut infers from the embedded
media type (default png). -/
def extFromMime : Option String → String
  | some "image/jpeg" => "jpg"
  | some "image/jpg" => "jpg"
  | some "image/webp" => "webp"
  | _ => "png"

/-- The bytes saveBase64ImageToOut writes to disk for a base64 input. -/
def saveBase64ImageBytes (b64String : String) : List Nat :=
  base64DecodeBytes (stripDataUrl b64String).2


/-! ## The /api/generate-image handler's provider flow (lines 121-193)

Validation (prompt length, API key) mirrors the video handler and is
upstream of this flow; `generateImage` models the handler from the
first provider attempt onward. `fname` stands for the generated output
filename and `dl` for the outcome of downloading a returned URL. -/

/-- HTTP result of the image handler's provider flow. -/
inductive ImgHandlerResult where
  | imageSaved (ref : String) (providerResponse : Option Json)
  | imagePassthrough (u : Json) (providerResponse : Option Json)
  | noImage (httpStatus : Nat) (msg : String) (payload : Option Json)
  | bothFailed (jsonStatus formStatus : Nat) (jsonText formText : String)
  | initialError (status : Nat) (statusText : String) (details : String)
deriving Repr

/-- Shared body of the two ok-response branches: save an inline base64
payload; download a returned URL and save it, falling back to the URL
itself when the download fails; else report that no image came back. -/
def handleOkAttempt (r : ProvResp) (noImageMsg : String) (fname : String)
    (dl : FetchOutcome) : ImgHandlerResult :=
  match imageExtract r.json with
  | .b64Inline _ => .imageSaved ("/out/" ++ fname) r.json
  | .urlRef u =>
    match dl with
    | .ok _ => .imageSaved ("/out/" ++ fname) r.json
    | _ => .imagePassthrough u r.json
  | .noResult => .noImage 500 noImageMsg r.json

/-- The provider flow: try JSON; on an ok response handle it; on a
failure showing the fallback signals perform exactly one form-encoded
retry (ok → handled, failure → the 502 composite error carrying both
attempts' status and text); on any other failure return the 502
initial error with no retry. The Nat counts form-encoded attempts. -/
def generateImage (jsonAttempt formAttempt : ProvResp) (fname : String)
    (dl : FetchOutcome) : ImgHandlerResult × Nat :=
  if jsonAttempt.ok then
    (handleOkAttempt jsonAttempt "No image returned in provider JSON" fname dl, 0)
  else if fallbackSignals jsonAttempt then
    if formAttempt.ok then
      (handleOkAttempt formAttempt "No image returned in provider form response" fname dl, 1)
    else
      (.bothFailed jsonAttempt.status formAttempt.status jsonAttempt.text formAttempt.text, 1)
  else
    (.initialError jsonAttempt.status jsonAttempt.statusText jsonAttempt.text, 0)

/-! ## Concrete fixtures used by witnesses and counterexamples -/

/-- Configuration with the default five-minute max-poll duration. -/
def cfgDemo : Config := { maxPollMs := 300000 }

/-- State right after a valid submission of prompt "a red fox" at time 0. -/
def demoStart : SysState := startedState cfgDemo "a red fox" 10 1920 1080 "job-1" 0

/-- A processing job that already holds a provider handle. -/
def jobPolling : Job := { demoStart.job with providerJobId := some (.str "abc123") }

/-- Status body that reports completion but carries no result fields. -/
def completedNoResultBody : Json := .obj [("status", .str "completed")]

/-- The spec's first extraction test body. -/
def artifactsBody : Json := .obj [("artifacts", .arr [.obj [("base64", .str "QUJD")]])]

/-- Completed status body carrying the artifacts shape. -/
def completedArtifactsBody : Json :=
  .obj [("status", .str "completed"), ("artifacts", .arr [.obj [("base64", .str "QUJD")]])]

/-- The spec's second extraction test body. -/
def outputBody : Json := .obj [("output", .arr [.obj [("url", .str "https://x/y.png")]])]

/-- A body matching neither extraction shape. -/
def neitherBody : Json := .obj [("note", .str "hello")]

/-- Submission body with an immediate video URL. -/
def lateVideoBody : Json := .obj [("video_url", .str "https://p/v.mp4")]

/-- Submission body answering with a provider task id. -/
def taskIdBody : Json := .obj [("task_id", .str "abc123")]

/-! ## Helper lemmas on the reachable job states -/

/-- The submission continuation only writes `failed`, `succeeded`, or
leaves the status alone. -/
theorem submitResume_status_cases (job : Job) (o : SubmitOutcome) (fname : String)
    (dl : FetchOutcome) :
    (submitResume job o fname dl).status = .failed ∨
    (submitResume job o fname dl).status = .succeeded ∨
    (submitResume job o fname dl).status = job.status := by
  cases o with
  | httpFail st txt => exact Or.inl rfl
  | exn m => exact Or.inl rfl
  | jsonBody pdata =>
    unfold submitResume
    rcases hv : getT pdata "video_url" with _ | vu
    · rcases hb : getT pdata "video_base64" with _ | b
      · rcases hp : extractProviderJobId pdata with _ | pid
        · simp [hv, hb, hp]
        · simp [hv, hb, hp]
      · simp [hv, hb]
    · simp [hv]

/-- A poll visit only writes `failed` or leaves the status alone. -/
theorem pollWorkerVisit_status_cases (cfg : Config) (job : Job) (now : Nat) :
    (pollWorkerVisit cfg job now).1.status = .failed ∨
    (pollWorkerVisit cfg job now).1.status = job.status := by
  unfold pollWorkerVisit
  by_cases hs : job.status ≠ .processing
  · simp [hs]
  · rw [if_neg (by simpa using hs)]
    by_cases ht : effMaxPoll cfg job < now - job.startedAt.getD 0
    · simp [ht]
    · rcases hp : job.providerJobId with _ | pid <;> simp [ht, hp]

/-- A poll continuation only writes `succeeded`, `failed`, or leaves
the status alone. -/
theorem pollWorkerResume_status_cases (job : Job) (o : PollOutcome) (fname : String)
    (dl : FetchOutcome) :
    (pollWorkerResume job o fname dl).status = .failed ∨
    (pollWorkerResume job o fname dl).status = .succeeded ∨
    (pollWorkerResume job o fname dl).status = job.status := by
  cases o with
  | httpFail st txt => exact Or.inr (Or.inr rfl)
  | exn m => exact Or.inr (Or.inr rfl)
  | jsonBody sData =>
    unfold pollWorkerResume
    by_cases hc : isCompleted sData
    · simp [hc]
    · by_cases hf : isFailedStatus sData <;> simp [hc, hf]

/-- No mutation performed after creation ever writes `queued`. -/
theorem exec_status_ne_queued (cfg : Config) (s : SysState) (a : Act)
    (h : s.job.status ≠ .queued) : (exec cfg s a).job.status ≠ .queued := by
  cases a with
  | tick dt => exact h
  | submitResolve o fname dl =>
    unfold exec
    by_cases hp : s.submitPending
    · rcases submitResume_status_cases s.job o fname dl with hc | hc | hc <;>
        simp [hp, hc] <;> exact h
    · simpa [hp] using h
  | pollStart =>
    unfold exec
    rcases pollWorkerVisit_status_cases cfg s.job s.now with hc | hc <;>
      simp [hc] <;> exact h
  | pollResolve o fname dl =>
    unfold exec
    by_cases hp : 0 < s.pollsInFlight
    · rcases pollWorkerResume_status_cases s.job o fname dl with hc | hc | hc <;>
        simp [hp, hc] <;> exact h
    · simpa [hp] using h

/-- Traces preserve the impossibility of observing `queued`. -/
theorem run_status_ne_queued (cfg : Config) (s : SysState) (acts : List Act)
    (h : s.job.status ≠ .queued) : (run cfg s acts).job.status ≠ .queued := by
  induction acts generalizing s with
  | nil => exact h
  | cons a rest ih => exact ih (exec cfg s a) (exec_status_ne_queued cfg s a h)

/-- The field discipline that actually holds on reachable job records:
nothing is set before a terminal transition, and every failure carries
an error. (Success does not always carry a result — see the
counterexamples around completed responses with no extractable
payload.) -/
def jobFieldsOk (j : Job) : Prop :=
  ((j.status = .queued ∨ j.status = .processing) → j.resultUrl = none ∧ j.error = none) ∧
  (j.status = .failed → j.error ≠ none)

/-- Terminal failure with an error present satisfies the discipline. -/
theorem jobFieldsOk_failed (j : Job) (hs : j.status = .failed) (he : j.error ≠ none) :
    jobFieldsOk j := by
  constructor
  · intro hq
    rcases hq with hq | hq <;> rw [hs] at hq <;> exact absurd hq (by decide)
  · intro _
    exact he

/-- A succeeded record satisfies the discipline vacuously. -/
theorem jobFieldsOk_succeeded (j : Job) (hs : j.status = .succeeded) :
    jobFieldsOk j := by
  constructor
  · intro hq
    rcases hq with hq | hq <;> rw [hs] at hq <;> exact absurd hq (by decide)
  · intro hf
    rw [hs] at hf
    exact absurd hf (by decide)

/-- The discipline only depends on status, resultUrl and error. -/
theorem jobFieldsOk_congr (j j' : Job) (hs : j'.status = j.status)
    (hr : j'.resultUrl = j.resultUrl) (he : j'.error = j.error)
    (h : jobFieldsOk j) : jobFieldsOk j' := by
  obtain ⟨h1, h2⟩ := h
  constructor
  · intro hq
    rw [hs] at hq
    rw [hr, he]
    exact h1 hq
  · intro hf
    rw [hs] at hf
    rw [he]
    exact h2 hf

/-- The submission continuation preserves the field discipline. -/
theorem submitResume_fieldsOk (job : Job) (o : SubmitOutcome) (fname : String)
    (dl : FetchOutcome) (h : jobFieldsOk job) :
    jobFieldsOk (submitResume job o fname dl) := by
  cases o with
  | httpFail st txt =>
    exact jobFieldsOk_failed _ rfl (fun hc => Option.noConfusion hc)
  | exn m =>
    exact jobFieldsOk_failed _ rfl (fun hc => Option.noConfusion hc)
  | jsonBody pdata =>
    rcases hv : getT pdata "video_url" with _ | vu
    · rcases hb : getT pdata "video_base64" with _ | b
      · rcases hp : extractProviderJobId pdata with _ | pid
        · simp only [submitResume, hv, hb, hp]
          exact jobFieldsOk_failed _ rfl (fun hc => Option.noConfusion hc)
        · simp only [submitResume, hv, hb, hp]
          exact jobFieldsOk_congr _ job rfl rfl rfl h
      · simp only [submitResume, hv, hb]
        exact jobFieldsOk_succeeded _ rfl
    · simp only [submitResume, hv]
      exact jobFieldsOk_succeeded _ rfl

/-- A poll visit preserves the field discipline. -/
theorem pollWorkerVisit_fieldsOk (cfg : Config) (job : Job) (now : Nat)
    (h : jobFieldsOk job) : jobFieldsOk (pollWorkerVisit cfg job now).1 := by
  unfold pollWorkerVisit
  by_cases hs : job.status ≠ .processing
  · simpa [hs] using h
  · rw [if_neg (by simpa using hs)]
    by_cases ht : effMaxPoll cfg job < now - job.startedAt.getD 0
    · rw [if_pos ht]
      exact jobFieldsOk_failed _ rfl (fun hc => Option.noConfusion hc)
    · rw [if_neg ht]
      rcases hp : job.providerJobId with _ | pid <;> simpa using h

/-- A poll continuation preserves the field discipline. -/
theorem pollWorkerResume_fieldsOk (job : Job) (o : PollOutcome) (fname : String)
    (dl : FetchOutcome) (h : jobFieldsOk job) :
    jobFieldsOk (pollWorkerResume job o fname dl) := by
  cases o with
  | httpFail st txt => exact h
  | exn m => exact h
  | jsonBody sData =>
    simp only [pollWorkerResume]
    by_cases hc : isCompleted sData = true
    · rw [if_pos hc]
      exact jobFieldsOk_succeeded _ rfl
    · rw [if_neg hc]
      by_cases hf : isFailedStatus sData = true
      · rw [if_pos hf]
        exact jobFieldsOk_failed _ rfl (fun hx => Option.noConfusion hx)
      · rw [if_neg hf]
        exact jobFieldsOk_congr _ job rfl rfl rfl h

/-- One step preserves the field discipline. -/
theorem exec_fieldsOk (cfg : Config) (s : SysState) (a : Act)
    (h : jobFieldsOk s.job) : jobFieldsOk (exec cfg s a).job := by
  cases a with
  | tick dt => exact h
  | submitResolve o fname dl =>
    unfold exec
    by_cases hp : s.submitPending
    · simpa [hp] using submitResume_fieldsOk s.job o fname dl h
    · simpa [hp] using h
  | pollStart =>
    unfold exec
    simpa using pollWorkerVisit_fieldsOk cfg s.job s.now h
  | pollResolve o fname dl =>
    unfold exec
    by_cases hp : 0 < s.pollsInFlight
    · simpa [hp] using pollWorkerResume_fieldsOk s.job o fname dl h
    · simpa [hp] using h

/-- Traces preserve the field discipline. -/
theorem run_fieldsOk (cfg : Config) (s : SysState) (acts : List Act)
    (h : jobFieldsOk s.job) : jobFieldsOk (run cfg s acts).job := by
  induction acts generalizing s with
  | nil => exact h
  | cons a rest ih => exact ih (exec cfg s a) (exec_fieldsOk cfg s a h)

/-! ## Claims -/

/-- C1: the submission route rejects a trimmed prompt shorter than 3
characters (the empty prompt has length 0, so both `!prompt` and the
length test land here) with a 400, and a missing provider credential
with a 500, in both cases returning no stored state — no job record is
created; a valid submission stores the job and answers with the fresh
identifier and the literal status `queued`, while the provider fetch is
still pending (`submitPending`) — the response is computed with no
provider input at all, as the type of `generateVideo` shows. -/
theorem c1_submission_contract (cfg : Config) (rawPrompt : String)
    (duration width height : Nat) (apiKey freshId : String) (now : Nat) :
    ((jsTrim rawPrompt).length < 3 →
      generateVideo cfg rawPrompt duration width height apiKey freshId now =
        (.err 400 "Prompt too short", none)) ∧
    (3 ≤ (jsTrim rawPrompt).length → apiKey.length = 0 →
      generateVideo cfg rawPrompt duration width height apiKey freshId now =
        (.err 500 "Server not configured with PROVIDER_API_KEY. Set it in Render environment variables.",
         none)) ∧
    (3 ≤ (jsTrim rawPrompt).length → apiKey.length ≠ 0 →
      generateVideo cfg rawPrompt duration width height apiKey freshId now =
        (.accepted freshId "queued",
         some (startedState cfg (jsTrim rawPrompt) duration width height freshId now)) ∧
      (startedState cfg (jsTrim rawPrompt) duration width height freshId now).submitPending = true) := by
  refine ⟨fun hshort => ?_, fun hlong hkey => ?_, fun hlong hkey => ?_⟩
  · simp only [generateVideo]
    rw [if_pos (Or.inr hshort)]
  · simp only [generateVideo]
    rw [if_neg (by omega), if_pos hkey]
  · simp only [generateVideo]
    rw [if_neg (by omega), if_neg hkey]
    exact ⟨rfl, rfl⟩

/-- Witness for C1 at concrete inputs: a two-character prompt is
rejected 400, a missing key is rejected 500, and a valid request is
accepted with the queued response and a pending provider fetch. -/
theorem c1_submission_contract_witness :
    generateVideo cfgDemo "hi" 10 1920 1080 "key" "job-2" 0 =
      (.err 400 "Prompt too short", none) ∧
    generateVideo cfgDemo "a red fox" 10 1920 1080 "" "job-3" 0 =
      (.err 500 "Server not configured with PROVIDER_API_KEY. Set it in Render environment variables.",
       none) ∧
    generateVideo cfgDemo "a red fox" 10 1920 1080 "key" "job-1" 0 =
      (.accepted "job-1" "queued",
       some (startedState cfgDemo (jsTrim "a red fox") 10 1920 1080 "job-1" 0)) :=
  ⟨(c1_submission_contract cfgDemo "hi" 10 1920 1080 "key" "job-2" 0).1 (by decide),
   (c1_submission_contract cfgDemo "a red fox" 10 1920 1080 "" "job-3" 0).2.1 (by decide) rfl,
   ((c1_submission_contract cfgDemo "a red fox" 10 1920 1080 "key" "job-1" 0).2.2
     (by decide) (by decide)).1⟩

/-- C2 fails on the code: the detached submission continuation writes
its outcome without re-checking the job's status, so a job that the
poll sweep timed out to `failed` flips to `succeeded` when the
still-outstanding submission fetch later resolves with a video URL.
The trace below is produced by a valid submission whose provider fetch
takes longer than the max-poll duration. -/
theorem c2_terminal_flip :
    (generateVideo cfgDemo "a red fox" 10 1920 1080 "key" "job-1" 0).2 = some demoStart ∧
    (run cfgDemo demoStart [.tick 300001, .pollStart]).job.status = .failed ∧
    (run cfgDemo demoStart [.tick 300001, .pollStart]).job.error =
      some (.str "Polling timeout") ∧
    (run cfgDemo demoStart [.tick 300001, .pollStart,
        .submitResolve (.jsonBody lateVideoBody) "v.mp4" (.ok [])]).job.status = .succeeded :=
  ⟨rfl, rfl, rfl, rfl⟩

/-- C3 fails on the code: `setInterval(pollWorker, ...)` fires without
awaiting the previous sweep and jobs carry no in-flight flag, so a
second sweep can start a status fetch for a job whose previous status
fetch is still outstanding — here two polls are in flight for the same
(still processing) job. -/
theorem c3_overlapping_polls :
    (run cfgDemo demoStart [.submitResolve (.jsonBody taskIdBody) "v.mp4" (.ok []),
        .pollStart, .pollStart]).pollsInFlight = 2 ∧
    (run cfgDemo demoStart [.submitResolve (.jsonBody taskIdBody) "v.mp4" (.ok []),
        .pollStart, .pollStart]).job.status = .processing ∧
    (run cfgDemo demoStart [.submitResolve (.jsonBody taskIdBody) "v.mp4" (.ok []),
        .pollStart, .pollStart]).job.providerJobId = some (.str "abc123") :=
  ⟨rfl, rfl, rfl⟩

/-- C4: when a sweep visits a processing job whose elapsed time exceeds
its max-poll duration, the job is marked failed with the timeout error
and no provider status request is issued (the Bool component is false),
so a provider that would have reported success is never consulted. -/
theorem c4_timeout_law (cfg : Config) (job : Job) (now : Nat)
    (hstat : job.status = .processing)
    (hdl : effMaxPoll cfg job < now - job.startedAt.getD 0) :
    pollWorkerVisit cfg job now =
      ({ job with status := .failed, error := some (.str "Polling timeout") }, false) := by
  simp only [pollWorkerVisit]
  rw [if_neg (by simp [hstat]), if_pos hdl]

/-- Witness for C4: a processing job with a provider handle, started at
time 0 with the five-minute default, visited at time 300001. -/
theorem c4_timeout_law_witness :
    pollWorkerVisit cfgDemo jobPolling 300001 =
      ({ jobPolling with status := .failed, error := some (.str "Polling timeout") }, false) :=
  c4_timeout_law cfgDemo jobPolling 300001 rfl (by decide)

/-- C5: the image handler never performs more than one form-encoded
retry; a failed JSON attempt showing the fallback signals (status 400,
or a body containing one of the four markers) triggers exactly one
retry, and when that also fails the single 502 composite error carries
both attempts' status and body text; a failed JSON attempt without the
signals triggers no retry, just the 502 initial error. -/
theorem c5_fallback_law (jsonAttempt formAttempt : ProvResp) (fname : String)
    (dl : FetchOutcome) :
    (generateImage jsonAttempt formAttempt fname dl).2 ≤ 1 ∧
    (jsonAttempt.ok = false → fallbackSignals jsonAttempt = true →
      (generateImage jsonAttempt formAttempt fname dl).2 = 1 ∧
      (formAttempt.ok = false →
        (generateImage jsonAttempt formAttempt fname dl).1 =
          .bothFailed jsonAttempt.status formAttempt.status jsonAttempt.text formAttempt.text)) ∧
    (jsonAttempt.ok = false → fallbackSignals jsonAttempt = false →
      (generateImage jsonAttempt formAttempt fname dl).2 = 0 ∧
      (generateImage jsonAttempt formAttempt fname dl).1 =
        .initialError jsonAttempt.status jsonAttempt.statusText jsonAttempt.text) := by
  refine ⟨?_, fun hok hsig => ?_, fun hok hsig => ?_⟩
  · by_cases hok : jsonAttempt.ok = true
    · simp [generateImage, hok]
    · by_cases hsig : fallbackSignals jsonAttempt = true
      · by_cases hfok : formAttempt.ok = true <;> simp [generateImage, hok, hsig, hfok]
      · simp [generateImage, hok, hsig]
  · constructor
    · by_cases hfok : formAttempt.ok = true <;> simp [generateImage, hok, hsig, hfok]
    · intro hfok
      simp [generateImage, hok, hsig, hfok]
  · simp [generateImage, hok, hsig]

/-- Concrete failing JSON attempt whose body names multipart. -/
def jFail : ProvResp :=
  { ok := false, status := 400, statusText := "Bad Request",
    text := "this endpoint expects multipart/form-data", json := none }

/-- Concrete failing form attempt. -/
def fFail : ProvResp :=
  { ok := false, status := 415, statusText := "Unsupported",
    text := "still bad", json := none }

/-- Witness for C5: both attempts fail; exactly one retry happens and
the composite 502 carries both statuses and texts. -/
theorem c5_fallback_law_witness :
    (generateImage jFail fFail "x.png" (.ok [])).2 = 1 ∧
    (generateImage jFail fFail "x.png" (.ok [])).1 =
      .bothFailed 400 415 "this endpoint expects multipart/form-data" "still bad" :=
  ⟨((c5_fallback_law jFail fFail "x.png" (.ok [])).2.1 rfl rfl).1,
   ((c5_fallback_law jFail fFail "x.png" (.ok [])).2.1 rfl rfl).2 rfl⟩

/-- C6 counterexample: the asynchronous status-response extractor does
not recognize the `artifacts` shape — on a completed body carrying
`artifacts[0].base64 = "QUJD"` it finds neither a base64 payload nor a
URL, and the poll continuation stores a null resultUrl instead of the
decoded bytes the claim asserts. -/
theorem c6_poll_artifacts_counterexample :
    isCompleted completedArtifactsBody = true ∧
    extractVidB64 completedArtifactsBody = none ∧
    extractVidUrl completedArtifactsBody = none ∧
    extractVidB64 completedArtifactsBody ≠ some (.str "QUJD") ∧
    (pollWorkerResume jobPolling (.jsonBody completedArtifactsBody) "v.mp4"
        (.ok [])).resultUrl = none :=
  ⟨rfl, rfl, rfl, fun hc => Option.noConfusion hc, rfl⟩

/-- C6 amended: the three extraction test cases hold for the image
submission extractor — the artifacts body yields the base64 payload
`QUJD`, which decodes to the bytes 65,66,67 (`ABC`); the output body
yields its URL; a body matching neither shape yields no result. The
status-poll extractor agrees on the URL case and the neither case but
yields no result on the artifacts shape (its key list is
video_base64/output[0].base64/data[0].base64). -/
theorem c6_extraction_amended :
    imageExtract (some artifactsBody) = .b64Inline (.str "QUJD") ∧
    base64DecodeBytes "QUJD" = [65, 66, 67] ∧
    saveBase64ImageBytes "QUJD" = [65, 66, 67] ∧
    imageExtract (some outputBody) = .urlRef (.str "https://x/y.png") ∧
    extractVidUrl outputBody = some (.str "https://x/y.png") ∧
    imageExtract (some neitherBody) = .noResult ∧
    extractVidB64 neitherBody = none ∧
    extractVidUrl neitherBody = none :=
  ⟨rfl, rfl, rfl, rfl, rfl, rfl, rfl, rfl⟩

/-- C7 counterexample: a completed status response with no extractable
result drives the job to the terminal `succeeded` state with neither
resultUrl nor error set — "exactly one of the two is set once terminal"
fails at this input. -/
theorem c7_neither_field_counterexample :
    (pollWorkerResume jobPolling (.jsonBody completedNoResultBody) "v.mp4"
        (.ok [])).status = .succeeded ∧
    (pollWorkerResume jobPolling (.jsonBody completedNoResultBody) "v.mp4"
        (.ok [])).resultUrl = none ∧
    (pollWorkerResume jobPolling (.jsonBody completedNoResultBody) "v.mp4"
        (.ok [])).error = none ∧
    ¬(((pollWorkerResume jobPolling (.jsonBody completedNoResultBody) "v.mp4"
          (.ok [])).resultUrl ≠ none ∧
       (pollWorkerResume jobPolling (.jsonBody completedNoResultBody) "v.mp4"
          (.ok [])).error = none) ∨
      ((pollWorkerResume jobPolling (.jsonBody completedNoResultBody) "v.mp4"
          (.ok [])).resultUrl = none ∧
       (pollWorkerResume jobPolling (.jsonBody completedNoResultBody) "v.mp4"
          (.ok [])).error ≠ none)) := by
  refine ⟨rfl, rfl, rfl, ?_⟩
  rintro (⟨hne, _⟩ | ⟨_, hne⟩) <;> exact hne rfl

/-- C7 amended: on every trace from a valid submission, a queued or
processing job has neither resultUrl nor error set, and every failed
job has its error set; a succeeded job, however, need not carry a
result (see the counterexample). -/
theorem c7_fields_invariant (cfg : Config) (prompt : String)
    (duration width height : Nat) (freshId : String) (now : Nat) (acts : List Act) :
    jobFieldsOk (run cfg (startedState cfg prompt duration width height freshId now) acts).job := by
  apply run_fieldsOk
  exact ⟨fun _ => ⟨rfl, rfl⟩, fun hf => JobStatus.noConfusion hf⟩

/-- Witness for C7 at a concrete trace: submission, then a sweep that
times the job out. -/
theorem c7_fields_invariant_witness :
    jobFieldsOk (run cfgDemo (startedState cfgDemo "a red fox" 10 1920 1080 "job-1" 0)
      [.tick 300001, .pollStart]).job :=
  c7_fields_invariant cfgDemo "a red fox" 10 1920 1080 "job-1" 0 [.tick 300001, .pollStart]

/-- C8 counterexample: on the asynchronous status response, a
recognized success with no extractable result does NOT fail the job —
the poll continuation marks it succeeded. -/
theorem c8_poll_shape_counterexample :
    isCompleted completedNoResultBody = true ∧
    extractVidB64 completedNoResultBody = none ∧
    extractVidUrl completedNoResultBody = none ∧
    (pollWorkerResume jobPolling (.jsonBody completedNoResultBody) "v.mp4"
        (.ok [])).status ≠ .failed ∧
    (pollWorkerResume jobPolling (.jsonBody completedNoResultBody) "v.mp4"
        (.ok [])).status = .succeeded :=
  ⟨rfl, rfl, rfl, fun hc => JobStatus.noConfusion hc, rfl⟩

/-- C8 amended: on the submission response the claim holds — a parsed
body with no immediate result and no provider handle turns the job
failed with the raw payload attached, and the poll worker never
revisits such a failed job (no retry). On the status response, a
recognized success with no extractable result instead yields
`succeeded` with a null result, keeping the raw payload only in
providerResponse. -/
theorem c8_shape_error_amended (cfg : Config) (job : Job) (pdata : Json)
    (fname : String) (dl : FetchOutcome) (now : Nat)
    (h1 : getT pdata "video_url" = none) (h2 : getT pdata "video_base64" = none)
    (h3 : extractProviderJobId pdata = none) :
    submitResume job (.jsonBody pdata) fname dl =
      { job with status := .failed,
                 error := some (.obj [("note", .str "Unexpected provider response"),
                                      ("payload", pdata)]) } ∧
    pollWorkerVisit cfg (submitResume job (.jsonBody pdata) fname dl) now =
      (submitResume job (.jsonBody pdata) fname dl, false) ∧
    (∀ sData : Json, isCompleted sData = true → extractVidB64 sData = none →
      extractVidUrl sData = none →
      pollWorkerResume job (.jsonBody sData) fname dl =
        { job with status := .succeeded, resultUrl := none,
                   providerResponse := some sData }) := by
  have hmain : submitResume job (.jsonBody pdata) fname dl =
      { job with status := .failed,
                 error := some (.obj [("note", .str "Unexpected provider response"),
                                      ("payload", pdata)]) } := by
    simp only [submitResume, h1, h2, h3]
  refine ⟨hmain, ?_, ?_⟩
  · rw [hmain]
    simp only [pollWorkerVisit]
    rw [if_pos (show JobStatus.failed ≠ JobStatus.processing from by decide)]
  · intro sData hc hb hv
    simp only [pollWorkerResume, hc, hb, hv]
    rw [if_pos trivial]
    rfl

/-- Witness for C8: the shape-failed submission at the `neitherBody`
payload, and the succeeded-with-null-result poll at the
completed-no-result body. -/
theorem c8_shape_error_amended_witness :
    submitResume demoStart.job (.jsonBody neitherBody) "v.mp4" (.ok []) =
      { demoStart.job with status := .failed,
                           error := some (.obj [("note", .str "Unexpected provider response"),
                                                ("payload", neitherBody)]) } ∧
    pollWorkerResume demoStart.job (.jsonBody completedNoResultBody) "v.mp4" (.ok []) =
      { demoStart.job with status := .succeeded, resultUrl := none,
                           providerResponse := some completedNoResultBody } :=
  ⟨(c8_shape_error_amended cfgDemo demoStart.job neitherBody "v.mp4" (.ok []) 0
      rfl rfl rfl).1,
   (c8_shape_error_amended cfgDemo demoStart.job neitherBody "v.mp4" (.ok []) 0
      rfl rfl rfl).2.2 completedNoResultBody rfl rfl rfl⟩

/-- C9: the materializer's remote-URL path returns the original remote
URL on any download failure (non-ok status or thrown network error) and
a fresh local `/out/` reference on success; it is a total function — no
outcome raises. -/
theorem c9_fetch_degrade (u : Json) (fname : String) (dl : FetchOutcome) :
    (dl.isFailure = true → saveVideoFromBase64OrUrl none (some u) fname dl = some u) ∧
    (dl.isFailure = false →
      saveVideoFromBase64OrUrl none (some u) fname dl = some (.str ("/out/" ++ fname))) := by
  cases dl with
  | ok bytes => exact ⟨fun hc => Bool.noConfusion hc, fun _ => rfl⟩
  | httpErr st => exact ⟨fun _ => rfl, fun hc => Bool.noConfusion hc⟩
  | netErr m => exact ⟨fun _ => rfl, fun hc => Bool.noConfusion hc⟩

/-- Witness for C9: a 404 download yields the remote URL unchanged; a
successful download yields the local reference. -/
theorem c9_fetch_degrade_witness :
    saveVideoFromBase64OrUrl none (some (.str "https://r/v.mp4")) "v.mp4" (.httpErr 404) =
      some (.str "https://r/v.mp4") ∧
    saveVideoFromBase64OrUrl none (some (.str "https://r/v.mp4")) "v.mp4" (.ok [1, 2]) =
      some (.str "/out/v.mp4") :=
  ⟨(c9_fetch_degrade (.str "https://r/v.mp4") "v.mp4" (.httpErr 404)).1 rfl,
   (c9_fetch_degrade (.str "https://r/v.mp4") "v.mp4" (.ok [1, 2])).2 rfl⟩

/-- C10: whenever the submission route stores a job (i.e. answers with
the queued response), the stored record is already `processing` with
`startedAt` set — the detached task runs synchronously up to its first
await, before the response is sent — and no status query along any
subsequent trace ever observes `queued`. -/
theorem c10_processing_at_return (cfg : Config) (rawPrompt : String)
    (duration width height : Nat) (apiKey freshId : String) (now : Nat)
    (st : SysState) (acts : List Act)
    (hsub : (generateVideo cfg rawPrompt duration width height apiKey freshId now).2 = some st) :
    st.job.status = .processing ∧ st.job.startedAt = some now ∧
    (getStatus (run cfg st acts).job).status ≠ .queued := by
  have hst : st = startedState cfg (jsTrim rawPrompt) duration width height freshId now := by
    simp only [generateVideo] at hsub
    split at hsub
    · simp at hsub
    · split at hsub
      · simp at hsub
      · simp at hsub
        exact hsub.symm
  subst hst
  exact ⟨rfl, rfl, run_status_ne_queued cfg _ acts (fun hc => JobStatus.noConfusion hc)⟩

/-- Witness for C10: the concrete valid submission, followed by a sweep
that times the job out — the status query still never sees `queued`. -/
theorem c10_processing_at_return_witness :
    demoStart.job.status = .processing ∧ demoStart.job.startedAt = some 0 ∧
    (getStatus (run cfgDemo demoStart [.tick 300001, .pollStart]).job).status ≠ .queued :=
  c10_processing_at_return cfgDemo "a red fox" 10 1920 1080 "key" "job-1" 0 demoStart
    [.tick 300001, .pollStart] rfl

end ServerModel
